import Mathlib

/-!
Verification development for the offline operation queue and
synchronization/reconciliation engine of GestionLecturasAgua.

The definitions below are a shallow embedding of the TypeScript source:

* `src/types/databaseModels.ts` — status enums, queue item and entity records;
* `src/database/offlineQueueRepository.ts` — `addOperationToQueue`,
  `getPendingOperations`, `updateQueueItemStatus`, `clearCompletedOperations`;
* `src/database/meterRepository.ts` — `addMeter`, `reconcileCreatedMeter`,
  `reconcileUpdatedMeter`, `insertReconciledMeterFromServer`,
  `updateMeterSyncStatusOnError`;
* `src/database/readingRepository.ts` — `reconcileCreatedReading`,
  `reconcileUpdatedReading`;
* `src/database/incidentRepository.ts` — `addIncident`,
  `reconcileCreatedIncident`;
* `src/database/routeMeterRepository.ts` — `reconcileUpdatedRouteMeter`,
  `reconcileBatchUpdateSequence`;
* `src/services/syncService.ts` — `processQueueItem`, `triggerSync` and the
  `BATCH_UPDATE_ROUTEMETER_SEQUENCE` case of `handleReconciliation`.

Modelling conventions.  SQLite tables are lists of records; an SQL `UPDATE …
WHERE id = ?` is a `List.map` that rewrites the matching rows; `SELECT … WHERE
id = ?` with a single expected row is `List.find?`.  Timestamps are `Nat`
seconds (the source stores `strftime('%s','now')` / `Math.floor(Date.now() /
1000)`); where the source converts an ISO string via `new Date(s).getTime()`,
the model carries the already-converted second count.  UUIDs generated by
`uuid.v4()` are threaded in as explicit `freshId` arguments.  Wall-clock time
is threaded in as an explicit `now` argument.  `executeSql` failures
(exceptions) are modelled, where a claim depends on them, by explicit boolean
oracles (`sqlFails`, `ItemOutcome.statusWriteError`, …); reaching such a flag
makes the modelled function produce the error outcome exactly where the
source's `try`/`catch`/rethrow would.  Network reachability
(`currentNetworkState.isInternetReachable`) is an oracle `reach : Nat → Bool`
indexed by the orchestrator's successive checks.
-/

namespace GLA

/-- `OfflineQueueStatus` from `databaseModels.ts`:
`'pending' | 'processing' | 'completed' | 'failed' | 'retrying'`. -/
inductive OfflineQueueStatus where
  | pending
  | processing
  | completed
  | failed
  | retrying
deriving DecidableEq, Repr

/-- `SyncStatusType` from `databaseModels.ts`:
`'pending' | 'synced' | 'failed' | 'error' | 'conflicted'`. -/
inductive SyncStatusType where
  | pending
  | synced
  | failed
  | error
  | conflicted
deriving DecidableEq, Repr

/-- `OfflineOperationType` from `databaseModels.ts` (the full tag set used by
`syncService.getApiDetails` and `handleReconciliation`). -/
inductive OfflineOperationType where
  | CREATE_METER
  | UPDATE_METER
  | DELETE_METER
  | CREATE_READING
  | UPDATE_READING
  | DELETE_READING
  | CREATE_INCIDENT
  | UPDATE_INCIDENT
  | DELETE_INCIDENT
  | CREATE_ROUTE
  | UPDATE_ROUTE
  | DELETE_ROUTE
  | CREATE_ROUTEMETER
  | UPDATE_ROUTEMETER
  | DELETE_ROUTEMETER
  | BATCH_UPDATE_ROUTEMETER_SEQUENCE
  | DELETE_ROUTEMETERS_BY_ROUTEID
  | CREATE_SETTING
  | UPDATE_SETTING
  | DELETE_SETTING
  | UPSERT_SETTING
deriving DecidableEq, Repr

/-- `item.operationType.startsWith('CREATE_')` in `processQueueItem`. -/
def isCreateOperation : OfflineOperationType → Bool
  | .CREATE_METER | .CREATE_READING | .CREATE_INCIDENT
  | .CREATE_ROUTE | .CREATE_ROUTEMETER | .CREATE_SETTING => true
  | _ => false

/-- `requiresLocalEntityIdForUpdateOrDelete` in `processQueueItem`: a
non-create operation that is not one of
`BATCH_UPDATE_ROUTEMETER_SEQUENCE`, `DELETE_ROUTEMETERS_BY_ROUTEID`,
`UPSERT_SETTING`. -/
def requiresLocalEntityIdForUpdateOrDelete (op : OfflineOperationType) : Bool :=
  !isCreateOperation op &&
    !(op == .BATCH_UPDATE_ROUTEMETER_SEQUENCE
      || op == .DELETE_ROUTEMETERS_BY_ROUTEID
      || op == .UPSERT_SETTING)

/-- `OfflineQueueItem` from `databaseModels.ts` / the `OfflineQueue` table.
`createdAt` is the `timestamp` column (seconds).  The `payload` is the
serialized JSON snapshot, kept opaque as a `String`. -/
structure OfflineQueueItem where
  id : String
  operationType : OfflineOperationType
  payload : String
  entityId : Option String
  entityType : Option String
  relatedEntityId : Option String
  relatedEntityType : Option String
  status : OfflineQueueStatus
  attempts : Nat
  createdAt : Nat
  lastAttemptAt : Option Nat
  errorDetails : Option String
deriving DecidableEq, Repr

/-- A queue item is ready for a sync pass when
`status = 'pending' OR status = 'failed'` (the WHERE clause of
`getPendingOperations`). -/
def isReady (it : OfflineQueueItem) : Bool :=
  it.status == .pending || it.status == .failed

/-- The comparison `ORDER BY timestamp ASC` sorts on. -/
def tsLE (a b : OfflineQueueItem) : Prop :=
  a.createdAt ≤ b.createdAt

instance : DecidableRel tsLE := fun a b => Nat.decLe a.createdAt b.createdAt

instance : IsTotal OfflineQueueItem tsLE :=
  ⟨fun a b => Nat.le_total a.createdAt b.createdAt⟩

instance : IsTrans OfflineQueueItem tsLE :=
  ⟨fun _ _ _ h h' => Nat.le_trans h h'⟩

/-- The item `addOperationToQueue` inserts and returns: `status = 'pending'`,
`attempts = 0`, `timestamp = currentTimestamp`. -/
def enqueuedItem (operationType : OfflineOperationType) (payload : String)
    (entityId entityType relatedEntityId relatedEntityType : Option String)
    (freshId : String) (now : Nat) : OfflineQueueItem :=
  { id := freshId
    operationType
    payload
    entityId
    entityType
    relatedEntityId
    relatedEntityType
    status := .pending
    attempts := 0
    createdAt := now
    lastAttemptAt := none
    errorDetails := none }

/-- `offlineQueueRepository.addOperationToQueue`.  `insertOk` models whether
the `INSERT INTO OfflineQueue …` succeeds; on failure the source logs and
rethrows (`throw error`), which is the `.error` branch here. -/
def addOperationToQueue (insertOk : Bool) (operationType : OfflineOperationType)
    (payload : String)
    (entityId entityType relatedEntityId relatedEntityType : Option String)
    (freshId : String) (now : Nat) (queue : List OfflineQueueItem) :
    Except String (List OfflineQueueItem × OfflineQueueItem) :=
  let item := enqueuedItem operationType payload entityId entityType
    relatedEntityId relatedEntityType freshId now
  if insertOk then .ok (queue ++ [item], item)
  else .error "Error adding operation to offline queue"

/-- `offlineQueueRepository.getPendingOperations(limit)`:
`SELECT * FROM OfflineQueue WHERE status = 'pending' OR status = 'failed'
ORDER BY timestamp ASC LIMIT ?`.  The default limit at the call site in
`triggerSync` is 50. -/
def getPendingOperations (limit : Nat) (queue : List OfflineQueueItem) :
    List OfflineQueueItem :=
  ((queue.filter isReady).insertionSort tsLE).take limit

/-- `offlineQueueRepository.updateQueueItemStatus(id, status,
attemptsIncrement, errorDetails)`.  The source adds `attempts +
attemptsIncrement` when the increment is positive (identical to adding it
unconditionally over `Nat`), always stamps `lastAttemptAt`, sets
`errorDetails` when one is passed, keeps the previous error when the status is
`'failed'` and none is passed, and clears it otherwise. -/
def updateQueueItemStatus (id : String) (status : OfflineQueueStatus)
    (attemptsIncrement : Nat) (errorDetails : Option String) (now : Nat)
    (queue : List OfflineQueueItem) : List OfflineQueueItem :=
  queue.map fun it =>
    if it.id = id then
      { it with
        status
        attempts := it.attempts + attemptsIncrement
        lastAttemptAt := some now
        errorDetails :=
          match errorDetails with
          | some e => some e
          | none => if status = .failed then it.errorDetails else none }
    else it

/-- `offlineQueueRepository.clearCompletedOperations`:
`DELETE FROM OfflineQueue WHERE status = 'completed'`, returning
`rowsAffected`. -/
def clearCompletedOperations (queue : List OfflineQueueItem) :
    List OfflineQueueItem × Nat :=
  (queue.filter (fun it => it.status != .completed),
   (queue.filter (fun it => it.status == .completed)).length)

/-- TypeScript `a ?? b` for two optionals (`null`/`undefined` falls through). -/
def orD {α : Type} (a b : Option α) : Option α :=
  match a with
  | some x => some x
  | none => b

/-! ## Meters (`meterRepository.ts`)

The local `Meters` table.  The domain columns `locationLatitude`,
`locationLongitude`, `installationDate`, `meterType`, `status` and `userId`
are elided from the embedding; each is read and written by exactly the same
`serverMeter.field ?? localMeter.field` pattern as the `address` and `notes`
fields kept here, and no claim depends on their values. -/

structure Meter where
  id : String
  serverId : Option String
  serialNumber : String
  address : Option String
  notes : Option String
  syncStatus : SyncStatusType
  lastModified : Nat
  version : Option Nat
deriving DecidableEq, Repr

/-- `ServerMeter` (the server's representation; `id` is the
server-authoritative id).  `updatedAt` carries the ISO timestamp already
converted to seconds. -/
structure ServerMeter where
  id : String
  serialNumber : String
  address : String
  notes : Option String
  version : Option Nat
  updatedAt : Option Nat
deriving DecidableEq, Repr

/-- `getMeterById`: `SELECT * FROM Meters WHERE id = ?`. -/
def getMeterById (db : List Meter) (id : String) : Option Meter :=
  db.find? (fun m => m.id == id)

/-- `getMeterByServerId`: `SELECT * FROM Meters WHERE serverId = ?`. -/
def getMeterByServerId (db : List Meter) (serverId : String) : Option Meter :=
  db.find? (fun m => m.serverId == some serverId)

/-- `insertReconciledMeterFromServer`: insert a fresh local record derived
from the server data, `syncStatus = 'synced'`,
`lastModified = updatedAt ?? now`, `version = serverMeter.version ?? 0`. -/
def insertReconciledMeterFromServer (serverMeter : ServerMeter)
    (freshId : String) (now : Nat) (db : List Meter) : List Meter :=
  db ++ [{ id := freshId
           serverId := some serverMeter.id
           serialNumber := serverMeter.serialNumber
           address := some serverMeter.address
           notes := serverMeter.notes
           syncStatus := .synced
           lastModified := serverMeter.updatedAt.getD now
           version := some (serverMeter.version.getD 0) }]

/-- `updateMeterSyncStatusOnError`: `UPDATE Meters SET syncStatus = 'error',
lastModified = now WHERE id = ?`. -/
def updateMeterSyncStatusOnError (id : String) (now : Nat) (db : List Meter) :
    List Meter :=
  db.map fun m =>
    if m.id = id then { m with syncStatus := .error, lastModified := now }
    else m

/-- `reconcileCreatedMeter(localId, serverMeter)`.  When the local record is
missing it inserts from server data; otherwise it unconditionally copies the
server fields, sets `serverId`, `version = serverMeter.version ??
localMeter.version ?? 0`, `lastModified = updatedAt ?? localMeter.lastModified`
and `syncStatus = 'synced'`.  There is no duplicate-server-id check in the
source.  `sqlFails` models the `UPDATE` throwing: the `catch` runs
`updateMeterSyncStatusOnError` and rethrows (the `some` error component). -/
def reconcileCreatedMeter (sqlFails : Bool) (localId : String)
    (serverMeter : ServerMeter) (freshId : String) (now : Nat)
    (db : List Meter) : List Meter × Option String :=
  match getMeterById db localId with
  | none => (insertReconciledMeterFromServer serverMeter freshId now db, none)
  | some localMeter =>
    if sqlFails then
      (updateMeterSyncStatusOnError localId now db,
       some "Error reconciling created meter")
    else
      let lastModifiedServer := serverMeter.updatedAt.getD localMeter.lastModified
      let versionServer := serverMeter.version.getD (localMeter.version.getD 0)
      (db.map fun m =>
        if m.id = localId then
          { m with
            serverId := some serverMeter.id
            serialNumber := serverMeter.serialNumber
            address := some serverMeter.address
            notes := orD serverMeter.notes localMeter.notes
            version := some versionServer
            lastModified := lastModifiedServer
            syncStatus := .synced }
        else m, none)

/-- Result of `reconcileUpdatedMeter`: the table afterwards, the rethrown
error if the `UPDATE` failed, and whether the version-regression
`console.warn` ("Local meter is newer than server data. Server data will be
applied to ensure consistency.") fired. -/
structure MeterReconcileResult where
  db : List Meter
  threw : Option String
  warnedVersionRegression : Bool
deriving DecidableEq, Repr

/-- `reconcileUpdatedMeter(meterId, serverMeter)`.  Looks the record up by
local id, then by server id; inserts from server data when neither exists.
If `serverMeter.version < localVersion` it warns and still applies the server
data.  If the versions are equal, the server timestamp is older and the local
record is `'synced'`, it is a no-op.  Otherwise it applies the server fields,
`version = serverMeter.version ?? localVersion`, `syncStatus = 'synced'` and
`serverId`. -/
def reconcileUpdatedMeter (sqlFails : Bool) (meterId0 : String)
    (serverMeter : ServerMeter) (freshId : String) (now : Nat)
    (db : List Meter) : MeterReconcileResult :=
  match orD (getMeterById db meterId0) (getMeterByServerId db serverMeter.id) with
  | none =>
    { db := insertReconciledMeterFromServer serverMeter freshId now db
      threw := none
      warnedVersionRegression := false }
  | some localMeter =>
    let meterId := localMeter.id
    let localVersion := localMeter.version.getD 0
    let serverTimestamp := (serverMeter.updatedAt.map (· * 1000)).getD 0
    let localTimestamp := localMeter.lastModified * 1000
    let warned :=
      match serverMeter.version with
      | some sv => decide (sv < localVersion)
      | none => false
    if !warned && serverMeter.version == some localVersion
        && decide (serverTimestamp < localTimestamp)
        && localMeter.syncStatus == .synced then
      { db := db, threw := none, warnedVersionRegression := false }
    else if sqlFails then
      { db := updateMeterSyncStatusOnError meterId now db
        threw := some "Error reconciling updated meter"
        warnedVersionRegression := warned }
    else
      let versionToSet := serverMeter.version.getD localVersion
      { db := db.map fun m =>
          if m.id = meterId then
            { m with
              serialNumber := serverMeter.serialNumber
              address := some serverMeter.address
              notes := orD serverMeter.notes localMeter.notes
              version := some versionToSet
              lastModified := serverMeter.updatedAt.getD localMeter.lastModified
              syncStatus := .synced
              serverId := some serverMeter.id }
          else m
        threw := none
        warnedVersionRegression := warned }

/-! ## Readings (`readingRepository.ts`)

The `Readings` table.  The domain columns `readingDate`, `latitude`,
`longitude`, `userId`, `readingType`, `isAnomaly` and `routeId` are elided;
each is overwritten from the server data by the same pattern as `value` and
`notes` kept here. -/

structure Reading where
  id : String
  serverId : Option String
  meterId : String
  value : Int
  notes : Option String
  syncStatus : SyncStatusType
  lastModified : Nat
  version : Option Nat
deriving DecidableEq, Repr

/-- `ServerReading`; `updatedAt` in seconds (optional, the source guards
`serverReading.updatedAt ? … : now`). -/
structure ServerReading where
  id : String
  meterId : String
  value : Int
  notes : Option String
  version : Option Nat
  updatedAt : Option Nat
deriving DecidableEq, Repr

/-- `getReadingById`: `SELECT * FROM Readings WHERE id = ?`. -/
def getReadingById (db : List Reading) (id : String) : Option Reading :=
  db.find? (fun r => r.id == id)

/-- `UPDATE Readings SET syncStatus = 'conflicted', lastModified = now WHERE
id = ?`. -/
def markReadingConflicted (id : String) (now : Nat) (db : List Reading) :
    List Reading :=
  db.map fun r =>
    if r.id = id then { r with syncStatus := .conflicted, lastModified := now }
    else r

/-- The `UPDATE` applying server data in `reconcileCreatedReading` /
`reconcileUpdatedReading`: copies the server fields, sets `syncStatus =
'synced'`, `lastModified = updatedAt ?? now`, `version =
serverReading.version`, `serverId = serverReading.id`. -/
def applyServerReading (id : String) (serverReading : ServerReading)
    (now : Nat) (db : List Reading) : List Reading :=
  db.map fun r =>
    if r.id = id then
      { r with
        serverId := some serverReading.id
        meterId := serverReading.meterId
        value := serverReading.value
        notes := serverReading.notes
        syncStatus := .synced
        lastModified := serverReading.updatedAt.getD now
        version := serverReading.version }
    else r

/-- `reconcileCreatedReading(localId, serverReading)`.  The duplicate guard:
`getReadingById(serverReading.id)` — a lookup by **local** primary key — and
when it finds a different record, the local record `localId` is marked
`'conflicted'` and reconciliation stops.  Otherwise the server data is
applied. -/
def reconcileCreatedReading (localId : String) (serverReading : ServerReading)
    (now : Nat) (db : List Reading) : List Reading :=
  match getReadingById db serverReading.id with
  | some existingReadingByServerId =>
    if existingReadingByServerId.id ≠ localId then
      markReadingConflicted localId now db
    else
      applyServerReading localId serverReading now db
  | none => applyServerReading localId serverReading now db

/-- `reconcileUpdatedReading(readingId, serverReading)`.  When
`serverReading.version < localReading.version` (both defined) the record is
marked `'conflicted'` and the server data is **not** applied; otherwise the
server data is applied. -/
def reconcileUpdatedReading (readingId : String)
    (serverReading : ServerReading) (now : Nat) (db : List Reading) :
    List Reading :=
  match getReadingById db readingId with
  | none => db
  | some localReading =>
    match serverReading.version, localReading.version with
    | some sv, some lv =>
      if sv < lv then markReadingConflicted readingId now db
      else applyServerReading readingId serverReading now db
    | _, _ => applyServerReading readingId serverReading now db

/-! ## Incidents (`incidentRepository.ts`)

The `Incidents` table.  The domain columns other than `description`
(`meterId`, `routeId`, `incidentDate`, `severity`, `status`, `photos`,
`notes`, `latitude`, `longitude`, `userId`) are elided; each is overwritten
from the server data exactly like `description`. -/

structure Incident where
  id : String
  serverId : Option String
  description : String
  syncStatus : SyncStatusType
  lastModified : Nat
  version : Option Nat
deriving DecidableEq, Repr

/-- `ServerIncident` (its `id` is a `string`; the source guards the falsy
case `if (!serverId)`, modelled as the empty string). -/
structure ServerIncident where
  id : String
  description : String
  version : Option Nat
deriving DecidableEq, Repr

/-- `getIncidentById`: `SELECT * FROM Incidents WHERE id = ?`. -/
def getIncidentById (db : List Incident) (id : String) : Option Incident :=
  db.find? (fun i => i.id == id)

/-- `UPDATE Incidents SET syncStatus = 'failed', lastModified = now WHERE
id = ?` — the status `reconcileCreatedIncident` writes on its error paths. -/
def markIncidentFailed (id : String) (now : Nat) (db : List Incident) :
    List Incident :=
  db.map fun i =>
    if i.id = id then { i with syncStatus := .failed, lastModified := now }
    else i

/-- `reconcileCreatedIncident(localId, serverIncident)`.  A missing server id
sets the local record's `syncStatus` to `'failed'` and returns normally; a
failing `UPDATE` runs the `catch`, which also sets `syncStatus = 'failed'`
and rethrows; otherwise the server fields are copied, `serverId` is set and
`syncStatus = 'synced'`. -/
def reconcileCreatedIncident (sqlFails : Bool) (localId : String)
    (serverIncident : ServerIncident) (now : Nat) (db : List Incident) :
    List Incident × Option String :=
  if serverIncident.id = "" then
    (markIncidentFailed localId now db, none)
  else if sqlFails then
    (markIncidentFailed localId now db,
     some "Error reconciling created incident")
  else
    (db.map fun i =>
      if i.id = localId then
        { i with
          serverId := some serverIncident.id
          description := serverIncident.description
          version := serverIncident.version
          syncStatus := .synced
          lastModified := now }
      else i, none)

/-! ## Route-meter links (`routeMeterRepository.ts`)

The `RouteMeters` table, keyed by the composite `(routeId, meterId)`. -/

structure RouteMeter where
  routeId : String
  meterId : String
  sequenceOrder : Nat
  status : String
  visitDate : Option Nat
  notes : Option String
  syncStatus : SyncStatusType
  lastModified : Nat
  version : Option Nat
  serverId : Option String
deriving DecidableEq, Repr

/-- `ServerRouteMeter`; `updatedAt`/`visitDate` in seconds. -/
structure ServerRouteMeter where
  id : String
  routeId : String
  meterId : String
  sequenceOrder : Nat
  status : String
  visitDate : Option Nat
  notes : Option String
  updatedAt : Nat
  version : Option Nat
deriving DecidableEq, Repr

/-- `ServerBatchResponse`: `{success, items?, errors?}` (the `errors` payload
is only logged and is elided). -/
structure ServerBatchResponse where
  success : Bool
  items : Option (List ServerRouteMeter)
deriving DecidableEq, Repr

/-- `getRouteMeterById(routeId, meterId)`:
`SELECT * FROM RouteMeters WHERE routeId = ? AND meterId = ?`. -/
def getRouteMeterById (db : List RouteMeter) (routeId meterId : String) :
    Option RouteMeter :=
  db.find? (fun rm => rm.routeId == routeId && rm.meterId == meterId)

/-- `getRouteMetersByRouteId(routeId)`:
`SELECT * FROM RouteMeters WHERE routeId = ? ORDER BY sequenceOrder ASC`. -/
def getRouteMetersByRouteId (db : List RouteMeter) (routeId : String) :
    List RouteMeter :=
  (db.filter (fun rm => rm.routeId == routeId)).insertionSort
    (fun a b => a.sequenceOrder ≤ b.sequenceOrder)

/-- `updateRouteMeter({routeId, meterId, syncStatus})` as invoked from the
reconciliation functions: a syncStatus-only patch.  When the record exists
and the status differs it is written together with
`lastModified = strftime('%s','now')`; when the status is unchanged
`prepareRouteMeterUpdate` returns `null` and no SQL runs; a missing record is
a warned no-op.  (The source also enqueues an `UPDATE_ROUTEMETER` operation
when the status changed; that side effect is on the queue table, not on
`RouteMeters`, and no claim depends on it.) -/
def updateRouteMeterSyncStatus (routeId meterId : String)
    (syncStatus : SyncStatusType) (now : Nat) (db : List RouteMeter) :
    List RouteMeter :=
  db.map fun rm =>
    if rm.routeId = routeId && rm.meterId = meterId
        && rm.syncStatus ≠ syncStatus then
      { rm with syncStatus, lastModified := now }
    else rm

/-- The `UPDATE RouteMeters SET sequenceOrder = ?, status = ?, visitDate = ?,
notes = ?, syncStatus = 'synced', lastModified = ?, version = ?, serverId = ?
WHERE routeId = ? AND meterId = ?` applying server data in
`reconcileUpdatedRouteMeter` (`visitDate` falls back to the local value). -/
def applyServerRouteMeter (routeId meterId : String)
    (serverRouteMeter : ServerRouteMeter) (localRM : RouteMeter)
    (db : List RouteMeter) : List RouteMeter :=
  db.map fun rm =>
    if rm.routeId = routeId && rm.meterId = meterId then
      { rm with
        sequenceOrder := serverRouteMeter.sequenceOrder
        status := serverRouteMeter.status
        visitDate := orD serverRouteMeter.visitDate localRM.visitDate
        notes := serverRouteMeter.notes
        syncStatus := .synced
        lastModified := serverRouteMeter.updatedAt
        version := serverRouteMeter.version
        serverId := some serverRouteMeter.id }
    else rm

/-- `reconcileUpdatedRouteMeter(routeId, meterId, serverRouteMeter)`.  A
missing link is a no-op; `serverRouteMeter.version < localRM.version` (both
defined) marks the link `'conflicted'` without applying the server data;
otherwise the server fields are applied with `syncStatus = 'synced'`. -/
def reconcileUpdatedRouteMeter (routeId meterId : String)
    (serverRouteMeter : ServerRouteMeter) (now : Nat)
    (db : List RouteMeter) : List RouteMeter :=
  match getRouteMeterById db routeId meterId with
  | none => db
  | some localRM =>
    match serverRouteMeter.version, localRM.version with
    | some sv, some lv =>
      if sv < lv then
        updateRouteMeterSyncStatus routeId meterId .conflicted now db
      else
        applyServerRouteMeter routeId meterId serverRouteMeter localRM db
    | _, _ =>
      applyServerRouteMeter routeId meterId serverRouteMeter localRM db

/-- `reconcileBatchUpdateSequence(routeId, serverResponse)` in
`routeMeterRepository.ts`.  On server failure every link of the route is
marked `'error'`.  When the server returned a non-empty item list,
`reconcileUpdatedRouteMeter` is applied per item.  Otherwise (success without
an item list) every link of the route whose `syncStatus` is `'pending'` is
marked `'synced'` (best-effort fallback). -/
def reconcileBatchUpdateSequence (routeId : String)
    (serverResponse : ServerBatchResponse) (now : Nat)
    (db : List RouteMeter) : List RouteMeter :=
  if !serverResponse.success then
    (getRouteMetersByRouteId db routeId).foldl
      (fun d rm => updateRouteMeterSyncStatus rm.routeId rm.meterId .error now d)
      db
  else
    match serverResponse.items with
    | some (srm :: rest) =>
      ((srm :: rest)).foldl
        (fun d s => reconcileUpdatedRouteMeter s.routeId s.meterId s now d) db
    | _ =>
      (getRouteMetersByRouteId db routeId).foldl
        (fun d rm =>
          if rm.syncStatus == .pending then
            updateRouteMeterSyncStatus rm.routeId rm.meterId .synced now d
          else d)
        db

/-- The `case 'BATCH_UPDATE_ROUTEMETER_SEQUENCE'` branch of
`syncService.handleReconciliation`.  The source only logs a warning
("Batch sequence update reconciliation not yet implemented … Marking as
completed without local data reconciliation.") behind a stale TODO and never
calls `reconcileBatchUpdateSequence`: the `RouteMeters` table is returned
unchanged on every input. -/
def handleReconciliationBatchUpdateSequence (item : OfflineQueueItem)
    (serverResponseData : Option ServerBatchResponse)
    (db : List RouteMeter) : List RouteMeter :=
  match item.relatedEntityId, serverResponseData with
  | some _, some _ => db
  | _, _ => db

/-! ## Originating mutations (`meterRepository.addMeter`,
`incidentRepository.addIncident`)

The world these act on: the entity table plus the offline queue. -/

structure RepoWorld where
  meters : List Meter
  incidents : List Incident
  queue : List OfflineQueueItem
deriving DecidableEq, Repr

/-- Stand-in for `JSON.stringify(newMeter)`: the payload snapshot is opaque
to every claim, so an abbreviated textual encoding suffices. -/
def serializeMeter (m : Meter) : String :=
  String.intercalate "," [m.id, m.serialNumber]

/-- Stand-in for `JSON.stringify(newIncident)`. -/
def serializeIncident (i : Incident) : String :=
  String.intercalate "," [i.id, i.description]

/-- The client-supplied fields of `addMeter` (the elided domain columns
behave like `address`/`notes`). -/
structure MeterInput where
  serialNumber : String
  address : Option String
  notes : Option String
deriving DecidableEq, Repr

/-- `meterRepository.addMeter(meterData)`.  Inserts the record with
`syncStatus = 'pending'`, `version = 0`, then calls `addOperationToQueue
('CREATE_METER', newMeter, newMeter.id, 'Meter')` inside its own
`try`/`catch`: a queue failure is logged and swallowed ("Continue as the
local operation was successful") — the meter is still returned and the
caller sees success.  `insertOk` models the `INSERT INTO Meters` (failure
rethrows); `queueInsertOk` models the queue `INSERT`. -/
def addMeter (insertOk queueInsertOk : Bool) (meterData : MeterInput)
    (freshMeterId freshQueueId : String) (now : Nat) (w : RepoWorld) :
    Except String (RepoWorld × Meter) :=
  if !insertOk then .error "Error adding meter"
  else
    let newMeter : Meter :=
      { id := freshMeterId
        serverId := none
        serialNumber := meterData.serialNumber
        address := meterData.address
        notes := meterData.notes
        syncStatus := .pending
        lastModified := now
        version := some 0 }
    let meters' := w.meters ++ [newMeter]
    match addOperationToQueue queueInsertOk .CREATE_METER
        (serializeMeter newMeter) (some newMeter.id) (some "Meter") none none
        freshQueueId now w.queue with
    | .ok (queue', _) =>
      .ok ({ w with meters := meters', queue := queue' }, newMeter)
    | .error _ =>
      .ok ({ w with meters := meters' }, newMeter)

/-- The client-supplied fields of `addIncident`. -/
structure IncidentInput where
  description : String
deriving DecidableEq, Repr

/-- `incidentRepository.addIncident(incidentData)`.  Inserts with
`syncStatus = 'pending'`, `version = 1`, then enqueues `CREATE_INCIDENT`
inside its own `try`/`catch`: a queue failure is logged and swallowed, and
the incident is returned as a success. -/
def addIncident (insertOk queueInsertOk : Bool)
    (incidentData : IncidentInput) (freshIncidentId freshQueueId : String)
    (now : Nat) (w : RepoWorld) : Except String (RepoWorld × Incident) :=
  if !insertOk then .error "Error adding incident"
  else
    let newIncident : Incident :=
      { id := freshIncidentId
        serverId := none
        description := incidentData.description
        syncStatus := .pending
        lastModified := now
        version := some 1 }
    let incidents' := w.incidents ++ [newIncident]
    match addOperationToQueue queueInsertOk .CREATE_INCIDENT
        (serializeIncident newIncident) (some newIncident.id)
        (some "Incident") none none freshQueueId now w.queue with
    | .ok (queue', _) =>
      .ok ({ w with incidents := incidents', queue := queue' }, newIncident)
    | .error _ =>
      .ok ({ w with incidents := incidents' }, newIncident)

/-! ## Sync orchestrator (`syncService.ts`)

The orchestrator is modelled at the queue level.  The outcome of one item's
remote call and local reconciliation is an oracle (`ItemOutcome` below): the
HTTP transport and the entity-table effects of `handleReconciliation` are
external to the queue state, and the per-entity reconcilers are modelled
separately above.  Queue-status writes (`updateQueueItemStatus`) can throw in
the source; `ItemOutcome.statusWriteError` models a throw anywhere inside
`processQueueItem`, which propagates into `triggerSync`'s `catch`. -/

/-- The kind component of `syncService.SyncStatus`:
`'idle' | 'syncing' | 'success' | 'error'`. -/
inductive SyncStatusKind where
  | idle
  | syncing
  | success
  | error
deriving DecidableEq, Repr

/-- `syncService.SyncStatus` (`{status, message?}`; the optional count fields
are carried separately in `SyncSummary`). -/
structure SyncStatus where
  status : SyncStatusKind
  message : Option String
deriving DecidableEq, Repr

/-- The `summary` record built by `triggerSync`
(`processedItems` / `completedItems` / `failedItems`; `newRoutes` is dead —
the fetch is commented out — and stays 0). -/
structure SyncSummary where
  processedItems : Nat
  completedItems : Nat
  failedItems : Nat
deriving DecidableEq, Repr

/-- Oracle outcome of processing one queue item. -/
inductive ItemOutcome where
  | statusWriteError (msg : String)
  | parseError
  | apiError (err : String)
  | reconcileError (msg : String)
  | success
deriving DecidableEq, Repr

/-- The environment of one `triggerSync` run: the reachability snapshot read
at the entry check (`reach 0`) and at the check before item `i`
(`reach (i+1)`; `processQueueItem`'s own entry check reads the same
snapshot), each item's outcome, and whether the fallible queue reads/purge
throw. -/
structure SyncOracle where
  reach : Nat → Bool
  outcome : Nat → ItemOutcome
  getPendingThrows : Bool
  refetchThrows : Bool
  clearThrows : Bool

/-- `syncService.processQueueItem(item)`.  Skips silently when the network is
unreachable.  Otherwise: mark `'processing'` with `attempts + 1`; a payload
parse failure or a failed API call marks the item `'failed'` with error
details; on API success, a create without `entityId` or an update/delete
without `entityId` is marked `'failed'` ("Missing … localEntityId"); a
reconciliation exception marks the item `'failed'` ("Reconciliation
failed"); otherwise the item is marked `'completed'`.  (`getApiDetails` is
total over the typed `OfflineOperationType`, so its `default: throw` branch
is unreachable here.)  An `.error` result models a queue-status write
throwing. -/
def processQueueItem (reachable : Bool) (outcome : ItemOutcome) (now : Nat)
    (item : OfflineQueueItem) (queue : List OfflineQueueItem) :
    Except (String × List OfflineQueueItem) (List OfflineQueueItem) :=
  if !reachable then .ok queue
  else
    match outcome with
    | .statusWriteError msg => .error (msg, queue)
    | outcome =>
      let q1 := updateQueueItemStatus item.id .processing 1 none now queue
      match outcome with
      | .parseError =>
        .ok (updateQueueItemStatus item.id .failed 0
          (some "Payload parse error") now q1)
      | .apiError err =>
        .ok (updateQueueItemStatus item.id .failed 0 (some err) now q1)
      | _ =>
        if isCreateOperation item.operationType && item.entityId == none then
          .ok (updateQueueItemStatus item.id .failed 0
            (some "Missing client-side localEntityId for CREATE operation reconciliation")
            now q1)
        else if requiresLocalEntityIdForUpdateOrDelete item.operationType
            && item.entityId == none then
          .ok (updateQueueItemStatus item.id .failed 0
            (some "Missing localEntityId for reconciliation") now q1)
        else
          match outcome with
          | .reconcileError msg =>
            .ok (updateQueueItemStatus item.id .failed 0
              (some ("Reconciliation failed: " ++ msg)) now q1)
          | _ =>
            .ok (updateQueueItemStatus item.id .completed 0 none now q1)

/-- The `for (const item of pendingItems)` loop of `triggerSync`.  Checks
reachability before each item and breaks without touching further items when
it is lost.  Returns the queue, whether the loop broke on lost reachability,
and the ids of the items actually handed to `processQueueItem`, in order. -/
def processLoop (o : SyncOracle) (now : Nat) :
    Nat → List OfflineQueueItem → List OfflineQueueItem →
    Except (String × List OfflineQueueItem)
      (List OfflineQueueItem × Bool × List String)
  | _, [], queue => .ok (queue, false, [])
  | i, item :: rest, queue =>
    if !o.reach (i + 1) then .ok (queue, true, [])
    else
      match processQueueItem (o.reach (i + 1)) (o.outcome i) now item queue with
      | .error e => .error e
      | .ok q' =>
        match processLoop o now (i + 1) rest q' with
        | .error e => .error e
        | .ok (qf, broke, ids) => .ok (qf, broke, item.id :: ids)

/-- The success message `triggerSync` accumulates
(`newRoutes` is always 0, so its fragment never appears). -/
def successMessage (completedItems failedItems : Nat) : String :=
  "Sync: Synchronization process finished."
    ++ (if completedItems > 0 then
          " " ++ toString completedItems ++ " items synced." else "")
    ++ (if failedItems > 0 then
          " " ++ toString failedItems ++ " items failed." else "")

/-- The tail of `triggerSync`'s `try` block after the loop: re-read the ready
items to count failures (`finalPendingItems`), derive the summary counts,
purge completed items, and compute the final status
(`error` when any item failed, the no-changes message when nothing was
processed, `success` otherwise). -/
def finishPass (processedItems : Nat) (q1 : List OfflineQueueItem)
    (broke : Bool) (ids : List String) :
    List OfflineQueueItem × SyncSummary × SyncStatus × Bool × List String :=
  let finalPendingItems := getPendingOperations 50 q1
  let failedItems :=
    (finalPendingItems.filter (fun it => it.status == .failed)).length
  let completedItems :=
    processedItems -
      (finalPendingItems.filter (fun it => it.status != .completed)).length
  let q2 := (clearCompletedOperations q1).1
  let summary : SyncSummary := { processedItems, completedItems, failedItems }
  let finalStatus : SyncStatus :=
    if failedItems > 0 then
      { status := .error, message := some (successMessage completedItems failedItems) }
    else if processedItems = 0 then
      { status := .success, message := some "Sync: No changes to sync." }
    else
      { status := .success, message := some (successMessage completedItems failedItems) }
  (q2, summary, finalStatus, broke, ids)

/-- The `try` block of `triggerSync` after the guards: read the ready items
(limit 50), run the loop, then `finishPass`.  An `.error` carries the queue
as it stood when the exception was raised. -/
def runPassBody (o : SyncOracle) (now : Nat) (queue0 : List OfflineQueueItem) :
    Except (String × List OfflineQueueItem)
      (List OfflineQueueItem × SyncSummary × SyncStatus × Bool × List String) :=
  if o.getPendingThrows then .error ("getPendingOperations failed", queue0)
  else
    let pendingItems := getPendingOperations 50 queue0
    match processLoop o now 0 pendingItems queue0 with
    | .error e => .error e
    | .ok (q1, broke, ids) =>
      if o.refetchThrows then .error ("getPendingOperations failed", q1)
      else if o.clearThrows then .error ("clearCompletedOperations failed", q1)
      else .ok (finishPass pendingItems.length q1 broke ids)

/-- The status reported when a pass starts. -/
def syncStartStatus : SyncStatus :=
  { status := .syncing, message := some "Sync: Starting synchronization..." }

/-- The status reported when reachability is lost mid-pass. -/
def internetLostStatus : SyncStatus :=
  { status := .error, message := some "Sync: Internet lost during sync." }

/-- The world `triggerSync` acts on: the queue table, the module-level
`isSyncing` guard, whether `getDBConnection()` returns a handle, and the
module-level `currentSyncStatus`. -/
structure SyncWorld where
  queue : List OfflineQueueItem
  isSyncing : Bool
  dbOpen : Bool
  syncStatus : SyncStatus
deriving Repr

/-- The observable effects of one `triggerSync` invocation: the final world,
the ordered `updateSyncStatus` calls, the modelled console output (only the
"Already in progress." line), the ids handed to `processQueueItem`, and the
summary counts. -/
structure SyncResult where
  world : SyncWorld
  trace : List SyncStatus
  log : List String
  processedIds : List String
  summary : SyncSummary
deriving Repr

/-- `syncService.triggerSync(isManualTrigger)`.  The single-flight guard: a
call while `isSyncing` is true logs "Sync: Already in progress.", updates the
status only on a manual trigger, and returns without touching the queue.
Missing reachability or a closed database abort with an error status before
the guard is taken.  Otherwise the guard is set, the pass body runs, and the
`finally` clears `isSyncing` on both the normal and the exceptional exit;an
exception from the body becomes an error status report. -/
def triggerSync (o : SyncOracle) (isManualTrigger : Bool) (now : Nat)
    (w : SyncWorld) : SyncResult :=
  if w.isSyncing then
    if isManualTrigger then
      let st : SyncStatus :=
        { status := .idle, message := some "Sync: Already in progress." }
      { world := { w with syncStatus := st }
        trace := [st]
        log := ["Sync: Already in progress."]
        processedIds := []
        summary := ⟨0, 0, 0⟩ }
    else
      { world := w
        trace := []
        log := ["Sync: Already in progress."]
        processedIds := []
        summary := ⟨0, 0, 0⟩ }
  else if !o.reach 0 then
    let st : SyncStatus :=
      { status := .error, message := some "Sync: No internet connection, sync aborted." }
    { world := { w with syncStatus := st }
      trace := [st]
      log := []
      processedIds := []
      summary := ⟨0, 0, 0⟩ }
  else if !w.dbOpen then
    let st : SyncStatus :=
      { status := .error, message := some "Sync: Database not open, sync aborted." }
    { world := { w with syncStatus := st }
      trace := [st]
      log := []
      processedIds := []
      summary := ⟨0, 0, 0⟩ }
  else
    match runPassBody o now w.queue with
    | .ok (q2, summary, finalStatus, broke, ids) =>
      { world :=
          { queue := q2
            isSyncing := false
            dbOpen := w.dbOpen
            syncStatus := finalStatus }
        trace := [syncStartStatus]
          ++ (if broke then [internetLostStatus] else []) ++ [finalStatus]
        log := []
        processedIds := ids
        summary := summary }
    | .error (e, qe) =>
      let errSt : SyncStatus :=
        { status := .error, message := some ("Sync: Error - " ++ e) }
      { world :=
          { queue := qe
            isSyncing := false
            dbOpen := w.dbOpen
            syncStatus := errSt }
        trace := [syncStartStatus, errSt]
        log := []
        processedIds := []
        summary := ⟨0, 0, 0⟩ }

/-! ## Concrete instances used by the witnesses and counterexamples -/

/-- Concrete evaluation of the C4 theorem: a queue holding a completed, a
failed, a pending and a processing item, read with limit 2, yields the failed
and pending items oldest-first. -/
def c4Item (id : String) (st : OfflineQueueStatus) (ts : Nat) :
    OfflineQueueItem :=
  { id
    operationType := .UPDATE_METER
    payload := ""
    entityId := some id
    entityType := some "Meter"
    relatedEntityId := none
    relatedEntityType := none
    status := st
    attempts := 0
    createdAt := ts
    lastAttemptAt := none
    errorDetails := none }

def c4Queue : List OfflineQueueItem :=
  [c4Item "a" .completed 1, c4Item "b" .failed 7, c4Item "c" .pending 3,
   c4Item "d" .processing 2]

def c5Oracle : SyncOracle :=
  { reach := fun _ => true
    outcome := fun _ => .success
    getPendingThrows := false
    refetchThrows := false
    clearThrows := false }

def c5World : SyncWorld :=
  { queue := [c4Item "a" .pending 1]
    isSyncing := true
    dbOpen := true
    syncStatus := ⟨.syncing, some "Sync: Starting synchronization..."⟩ }

def c1ReadingX : Reading :=
  { id := "srv9", serverId := none, meterId := "m1", value := 3, notes := none,
    syncStatus := .synced, lastModified := 50, version := some 1 }

def c1ReadingY : Reading :=
  { id := "y", serverId := none, meterId := "m1", value := 4, notes := none,
    syncStatus := .pending, lastModified := 60, version := some 0 }

def c1ServerReading : ServerReading :=
  { id := "srv9", meterId := "m1", value := 4, notes := none,
    version := some 1, updatedAt := some 70 }

def c1MeterA : Meter :=
  { id := "a", serverId := some "s1", serialNumber := "SN1",
    address := some "addr1", notes := none, syncStatus := .synced,
    lastModified := 100, version := some 3 }

def c1MeterB : Meter :=
  { id := "b", serverId := none, serialNumber := "SN2", address := none,
    notes := none, syncStatus := .pending, lastModified := 200,
    version := some 0 }

def c1ServerMeter : ServerMeter :=
  { id := "s1", serialNumber := "SN-S", address := "addr-S", notes := none,
    version := some 1, updatedAt := some 300 }

def c2Meter : Meter :=
  { id := "mv", serverId := some "s7", serialNumber := "SN-old",
    address := some "addr", notes := none, syncStatus := .synced,
    lastModified := 100, version := some 3 }

def c2ServerMeter : ServerMeter :=
  { id := "s7", serialNumber := "SN-new", address := "addr2", notes := none,
    version := some 1, updatedAt := some 90 }

def c2Reading : Reading :=
  { id := "r1", serverId := some "s9", meterId := "m1", value := 10,
    notes := none, syncStatus := .synced, lastModified := 100,
    version := some 5 }

def c2ServerReading : ServerReading :=
  { id := "s9", meterId := "m1", value := 99, notes := none,
    version := some 2, updatedAt := some 150 }

def c8Meter : Meter :=
  { id := "me", serverId := none, serialNumber := "SN8", address := none,
    notes := none, syncStatus := .pending, lastModified := 10,
    version := some 0 }

def c8ServerMeter : ServerMeter :=
  { id := "s8", serialNumber := "SN8", address := "a8", notes := none,
    version := some 1, updatedAt := some 20 }

def c8Item : OfflineQueueItem := c4Item "qe" .pending 4

def c8Incident : Incident :=
  { id := "i1", serverId := none, description := "x", syncStatus := .pending,
    lastModified := 10, version := some 1 }

def c8ServerIncident : ServerIncident :=
  { id := "s1", description := "d", version := some 1 }

def c9RouteMeter : RouteMeter :=
  { routeId := "route1", meterId := "meterA", sequenceOrder := 1,
    status := "pending", visitDate := none, notes := none,
    syncStatus := .pending, lastModified := 10, version := some 1,
    serverId := none }

def c9BatchItem : OfflineQueueItem :=
  { id := "qb", operationType := .BATCH_UPDATE_ROUTEMETER_SEQUENCE,
    payload := "", entityId := none, entityType := none,
    relatedEntityId := some "route1", relatedEntityType := some "Route",
    status := .processing, attempts := 1, createdAt := 1,
    lastAttemptAt := some 1, errorDetails := none }

def c9Response : ServerBatchResponse := { success := true, items := none }

def c10Oracle : SyncOracle :=
  { reach := fun _ => true
    outcome := fun _ => .success
    getPendingThrows := true
    refetchThrows := false
    clearThrows := false }

def c10World : SyncWorld :=
  { queue := [c4Item "a" .pending 1]
    isSyncing := false
    dbOpen := true
    syncStatus := ⟨.idle, none⟩ }

def c3Oracle : SyncOracle :=
  { reach := fun _ => true
    outcome := fun _ => .success
    getPendingThrows := false
    refetchThrows := false
    clearThrows := false }

def c3World : SyncWorld :=
  { queue := [c4Item "a" .pending 1, c4Item "b" .failed 2,
              c4Item "c" .completed 3]
    isSyncing := false
    dbOpen := true
    syncStatus := ⟨.idle, none⟩ }

/-- The 51 pending items of the C3 counterexample, ids `"q0" … "q50"`,
enqueued in timestamp order. -/
def c3BigQueue : List OfflineQueueItem :=
  (List.range 51).map (fun i => c4Item ("q" ++ toString i) .pending i)

def c3BigWorld : SyncWorld :=
  { queue := c3BigQueue
    isSyncing := false
    dbOpen := true
    syncStatus := ⟨.idle, none⟩ }

/-- Reachability holds at the entry check and before item 0, then is lost
before item 1. -/
def c6Oracle : SyncOracle :=
  { reach := fun n => n != 2
    outcome := fun _ => .success
    getPendingThrows := false
    refetchThrows := false
    clearThrows := false }

def c6World : SyncWorld :=
  { queue := [c4Item "a" .pending 1, c4Item "b" .pending 2,
              c4Item "c" .failed 3]
    isSyncing := false
    dbOpen := true
    syncStatus := ⟨.idle, none⟩ }

/-! ## Helper lemmas -/

/-- Elements of the purged queue are never `'completed'`. -/
theorem mem_clearCompleted_status {q : List OfflineQueueItem}
    {it : OfflineQueueItem} (h : it ∈ (clearCompletedOperations q).1) :
    it.status ≠ .completed := by
  simp only [clearCompletedOperations, List.mem_filter] at h
  simpa [bne] using h.2

/-- `updateQueueItemStatus` leaves records with a different id untouched. -/
theorem mem_updateQueueItemStatus_of_ne {q : List OfflineQueueItem}
    {x : OfflineQueueItem} (hx : x ∈ q) {id : String} (hne : x.id ≠ id)
    (status : OfflineQueueStatus) (inc : Nat)
    (errD : Option String) (now : Nat) :
    x ∈ updateQueueItemStatus id status inc errD now q := by
  unfold updateQueueItemStatus
  exact List.mem_map.mpr ⟨x, hx, by simp [hne]⟩

/-- Any record of the updated queue that carries the targeted id has the
written status, and when an error detail was passed it carries it. -/
theorem mem_updateQueueItemStatus_target {q : List OfflineQueueItem}
    {x : OfflineQueueItem} {id : String} {status : OfflineQueueStatus}
    {inc : Nat} {errD : Option String} {now : Nat}
    (hx : x ∈ updateQueueItemStatus id status inc errD now q)
    (hid : x.id = id) :
    x.status = status ∧ (∀ e, errD = some e → x.errorDetails = some e) := by
  unfold updateQueueItemStatus at hx
  obtain ⟨y, _, rfl⟩ := List.mem_map.mp hx
  by_cases hy : y.id = id
  · simp only [hy, if_pos rfl]
    constructor
    · rfl
    · intro e he
      simp [he]
  · simp only [if_neg hy] at hid ⊢
    exact absurd hid hy

/-- Every item `getPendingOperations` returns is ready. -/
theorem mem_getPendingOperations_isReady {limit : Nat}
    {q : List OfflineQueueItem} {it : OfflineQueueItem}
    (h : it ∈ getPendingOperations limit q) : isReady it = true := by
  unfold getPendingOperations at h
  have h1 := List.mem_of_mem_take h
  have h2 := (List.perm_insertionSort tsLE (q.filter isReady)).mem_iff.mp h1
  exact (List.mem_filter.mp h2).2

/-- Every item `getPendingOperations` returns comes from the queue. -/
theorem mem_getPendingOperations_sub {limit : Nat}
    {q : List OfflineQueueItem} {it : OfflineQueueItem}
    (h : it ∈ getPendingOperations limit q) : it ∈ q := by
  unfold getPendingOperations at h
  have h1 := List.mem_of_mem_take h
  have h2 := (List.perm_insertionSort tsLE (q.filter isReady)).mem_iff.mp h1
  exact (List.mem_filter.mp h2).1

/-- Distinct ids in the queue give distinct ids in the ready batch. -/
theorem getPendingOperations_ids_nodup {limit : Nat}
    {q : List OfflineQueueItem}
    (h : (q.map (fun it => it.id)).Nodup) :
    ((getPendingOperations limit q).map (fun it => it.id)).Nodup := by
  have hfilter : ((q.filter isReady).map (fun it => it.id)).Nodup :=
    h.sublist ((List.filter_sublist q).map _)
  have hsorted :
      (((q.filter isReady).insertionSort tsLE).map (fun it => it.id)).Nodup :=
    (((List.perm_insertionSort tsLE (q.filter isReady)).map _).nodup_iff).mpr
      hfilter
  exact hsorted.sublist ((List.take_sublist _ _).map _)

/-- Claim C4: `listReady(limit)` (`getPendingOperations`) returns the ready
items — `status ∈ {pending, failed}` — ordered by `createdAt` ascending
across the whole queue (global FIFO, no per-entity partitioning), at most
`limit` of them, and all of them whenever at most `limit` items are ready. -/
theorem C4_listReady_spec (limit : Nat) (q : List OfflineQueueItem) :
    getPendingOperations limit q
        = ((q.filter isReady).insertionSort tsLE).take limit ∧
    (∀ it ∈ getPendingOperations limit q,
      it.status = .pending ∨ it.status = .failed) ∧
    List.Sorted tsLE (getPendingOperations limit q) ∧
    (getPendingOperations limit q).length ≤ limit ∧
    ((q.filter isReady).length ≤ limit →
      ∀ it ∈ q, isReady it = true → it ∈ getPendingOperations limit q) := by
  refine ⟨rfl, ?_, ?_, ?_, ?_⟩
  · intro it hit
    have := mem_getPendingOperations_isReady hit
    revert this
    unfold isReady
    rcases it.status <;> simp
  · have hs := List.sorted_insertionSort tsLE (q.filter isReady)
    exact hs.sublist (List.take_sublist _ _)
  · unfold getPendingOperations
    exact List.length_take_le _ _
  · intro hle it hit hready
    unfold getPendingOperations
    have hmem : it ∈ (q.filter isReady).insertionSort tsLE :=
      (List.perm_insertionSort tsLE (q.filter isReady)).mem_iff.mpr
        (List.mem_filter.mpr ⟨hit, hready⟩)
    have hlen : ((q.filter isReady).insertionSort tsLE).length ≤ limit := by
      rwa [(List.perm_insertionSort tsLE (q.filter isReady)).length_eq]
    rwa [List.take_of_length_le hlen]

theorem C4_listReady_witness :
    ((∀ it ∈ getPendingOperations 2 c4Queue,
        it.status = .pending ∨ it.status = .failed) ∧
      List.Sorted tsLE (getPendingOperations 2 c4Queue) ∧
      (getPendingOperations 2 c4Queue).length ≤ 2 ∧
      ((c4Queue.filter isReady).length ≤ 2 →
        ∀ it ∈ c4Queue, isReady it = true →
          it ∈ getPendingOperations 2 c4Queue)) ∧
    getPendingOperations 2 c4Queue = [c4Item "c" .pending 3, c4Item "b" .failed 7] :=
  ⟨((C4_listReady_spec 2 c4Queue).2), by decide⟩

/-- Claim C5: the single boolean `isSyncing` makes `triggerSync` single
flight.  A call made while `isSyncing` is true touches no queue item (the
queue is unchanged and nothing reaches `processQueueItem`), leaves the guard
as the active pass set it, logs "Sync: Already in progress.", and updates the
consumer-visible status to that message only on a manual trigger. -/
theorem C5_single_flight (o : SyncOracle) (isManual : Bool) (now : Nat)
    (w : SyncWorld) (h : w.isSyncing = true) :
    (triggerSync o isManual now w).world.queue = w.queue ∧
    (triggerSync o isManual now w).world.isSyncing = w.isSyncing ∧
    (triggerSync o isManual now w).processedIds = [] ∧
    (triggerSync o isManual now w).log = ["Sync: Already in progress."] ∧
    (isManual = true →
      (triggerSync o isManual now w).world.syncStatus
        = ⟨.idle, some "Sync: Already in progress."⟩) ∧
    (isManual = false →
      (triggerSync o isManual now w).world.syncStatus = w.syncStatus) := by
  cases hm : isManual <;> simp [triggerSync, h, hm]

theorem C5_single_flight_witness :
    (triggerSync c5Oracle true 9 c5World).world.queue = c5World.queue ∧
    (triggerSync c5Oracle true 9 c5World).world.isSyncing = c5World.isSyncing ∧
    (triggerSync c5Oracle true 9 c5World).processedIds = [] ∧
    (triggerSync c5Oracle true 9 c5World).log = ["Sync: Already in progress."] ∧
    (triggerSync c5Oracle true 9 c5World).world.syncStatus
      = ⟨.idle, some "Sync: Already in progress."⟩ := by
  have h := C5_single_flight c5Oracle true 9 c5World rfl
  exact ⟨h.1, h.2.1, h.2.2.1, h.2.2.2.1, h.2.2.2.2.1 rfl⟩

/-- Claim C7 (amended): `addOperationToQueue` itself persists the item with
`status = 'pending'`, `attempts = 0`, returns it, and propagates a
persistence failure to **its own** caller; but the originating mutations
`addMeter` and `addIncident` wrap the enqueue in their own `try`/`catch`,
swallow the failure and still return success — the local write commits with
no queue item. -/
theorem C7_enqueue_amended :
    (∀ (op : OfflineOperationType) (p : String)
        (eid ety rid rty : Option String) (fid : String) (now : Nat)
        (queue : List OfflineQueueItem),
      addOperationToQueue true op p eid ety rid rty fid now queue
          = .ok (queue ++ [enqueuedItem op p eid ety rid rty fid now],
                 enqueuedItem op p eid ety rid rty fid now) ∧
      (enqueuedItem op p eid ety rid rty fid now).status = .pending ∧
      (enqueuedItem op p eid ety rid rty fid now).attempts = 0) ∧
    (∀ (op : OfflineOperationType) (p : String)
        (eid ety rid rty : Option String) (fid : String) (now : Nat)
        (queue : List OfflineQueueItem),
      addOperationToQueue false op p eid ety rid rty fid now queue
          = .error "Error adding operation to offline queue") ∧
    (∀ (d : MeterInput) (fid qid : String) (now : Nat) (w : RepoWorld),
      ∃ m : Meter, addMeter true false d fid qid now w
          = .ok ({ w with meters := w.meters ++ [m] }, m)) ∧
    (∀ (d : IncidentInput) (fid qid : String) (now : Nat) (w : RepoWorld),
      ∃ i : Incident, addIncident true false d fid qid now w
          = .ok ({ w with incidents := w.incidents ++ [i] }, i)) := by
  refine ⟨fun op p eid ety rid rty fid now queue => ⟨rfl, rfl, rfl⟩,
          fun op p eid ety rid rty fid now queue => rfl,
          fun d fid qid now w => ⟨_, rfl⟩,
          fun d fid qid now w => ⟨_, rfl⟩⟩

/-- The claim C7 fails on the code: `addMeter` with a failing queue insert
returns `.ok` — the meter row is committed, the queue is left empty, and no
failure reaches the caller. -/
theorem C7_counterexample :
    addMeter true false ⟨"SN1", none, none⟩ "m1" "q1" 5 ⟨[], [], []⟩
      = .ok
        (⟨[{ id := "m1", serverId := none, serialNumber := "SN1",
             address := none, notes := none, syncStatus := .pending,
             lastModified := 5, version := some 0 }], [], []⟩,
         { id := "m1", serverId := none, serialNumber := "SN1",
           address := none, notes := none, syncStatus := .pending,
           lastModified := 5, version := some 0 }) := rfl

/-- Rewriting the row with key `key` through an id-preserving update commutes
with looking the key up. -/
theorem find?_map_ite {α : Type} (db : List α) (idf : α → String)
    (key : String) (g : α → α) (hg : ∀ x, idf (g x) = idf x) :
    (db.map fun x => if idf x = key then g x else x).find?
        (fun x => idf x == key)
      = (db.find? (fun x => idf x == key)).map
          (fun x => if idf x = key then g x else x) := by
  rw [List.find?_map]
  have hp : ((fun x => idf x == key) ∘ fun x => if idf x = key then g x else x)
      = fun x => idf x == key := by
    funext x
    by_cases hx : idf x = key <;> simp [hx, hg]
  rw [hp]

/-- Claim C1 (amended): the duplicate-creation guard exists for readings —
`reconcileCreatedReading` marks the *local* record `conflicted` and stops,
copying no server field, when a different local record whose **local id**
equals `remoteData.id` exists — but `reconcileCreatedMeter` has no guard at
all: whenever the local record exists it adopts the server data
(`syncStatus = 'synced'`, `serverId = remoteData.id`) unconditionally, so for
meters the timeout-retry duplicate is adopted, not conflicted, and no entity
kind checks `serverId` ownership. -/
theorem C1_amended_theorem :
    (∀ (db : List Reading) (localId : String) (sr : ServerReading) (now : Nat),
      (∃ r ∈ db, r.id = sr.id) → sr.id ≠ localId →
      reconcileCreatedReading localId sr now db
          = markReadingConflicted localId now db ∧
      (∀ r0, getReadingById db localId = some r0 →
        getReadingById (reconcileCreatedReading localId sr now db) localId
          = some { r0 with syncStatus := .conflicted, lastModified := now })) ∧
    (∀ (db : List Meter) (localId : String) (sm : ServerMeter)
        (freshId : String) (now : Nat) (m : Meter),
      getMeterById db localId = some m →
      (getMeterById (reconcileCreatedMeter false localId sm freshId now db).1
          localId).map Meter.syncStatus = some .synced ∧
      (getMeterById (reconcileCreatedMeter false localId sm freshId now db).1
          localId).map Meter.serverId = some (some sm.id)) := by
  constructor
  · intro db localId sr now hdup hne
    have hsome : (db.find? (fun r => r.id == sr.id)).isSome := by
      rw [List.find?_isSome]
      obtain ⟨r, hr, hid⟩ := hdup
      exact ⟨r, hr, by simp [hid]⟩
    obtain ⟨ex, hex⟩ := Option.isSome_iff_exists.mp hsome
    have hexid : ex.id = sr.id := by
      have := List.find?_some hex
      simpa using this
    have heq : reconcileCreatedReading localId sr now db
        = markReadingConflicted localId now db := by
      unfold reconcileCreatedReading getReadingById
      rw [hex]
      simp [hexid, hne]
    refine ⟨heq, ?_⟩
    intro r0 hr0
    have hr0id : r0.id = localId := by
      have := List.find?_some hr0
      simpa using this
    rw [heq]
    unfold markReadingConflicted getReadingById
    rw [find?_map_ite db (fun r => r.id) localId
      (fun r => { r with syncStatus := .conflicted, lastModified := now })
      (fun x => rfl)]
    rw [show (db.find? fun r => r.id == localId) = some r0 from hr0]
    simp [hr0id]
  · intro db localId sm freshId now m hfound
    have hmid : m.id = localId := by
      have := List.find?_some hfound
      simpa using this
    have hres : reconcileCreatedMeter false localId sm freshId now db
        = (db.map fun x =>
            if x.id = localId then
              { x with
                serverId := some sm.id
                serialNumber := sm.serialNumber
                address := some sm.address
                notes := orD sm.notes m.notes
                version := some (sm.version.getD (m.version.getD 0))
                lastModified := sm.updatedAt.getD m.lastModified
                syncStatus := .synced }
            else x, none) := by
      unfold reconcileCreatedMeter
      rw [show getMeterById db localId = some m from hfound]
      simp
    rw [hres]
    unfold getMeterById
    rw [find?_map_ite db (fun x => x.id) localId
      (fun x =>
        { x with
          serverId := some sm.id
          serialNumber := sm.serialNumber
          address := some sm.address
          notes := orD sm.notes m.notes
          version := some (sm.version.getD (m.version.getD 0))
          lastModified := sm.updatedAt.getD m.lastModified
          syncStatus := .synced })
      (fun x => rfl)]
    rw [show (db.find? fun x => x.id == localId) = some m from hfound]
    simp [hmid]

theorem C1_amended_witness :
    (reconcileCreatedReading "y" c1ServerReading 70 [c1ReadingX, c1ReadingY]
        = markReadingConflicted "y" 70 [c1ReadingX, c1ReadingY] ∧
      getReadingById
          (reconcileCreatedReading "y" c1ServerReading 70
            [c1ReadingX, c1ReadingY]) "y"
        = some { c1ReadingY with syncStatus := .conflicted, lastModified := 70 }) ∧
    ((getMeterById
        (reconcileCreatedMeter false "b" c1ServerMeter "fresh" 300
          [c1MeterA, c1MeterB]).1 "b").map Meter.syncStatus
        = some .synced ∧
      (getMeterById
        (reconcileCreatedMeter false "b" c1ServerMeter "fresh" 300
          [c1MeterA, c1MeterB]).1 "b").map Meter.serverId
        = some (some "s1")) := by
  constructor
  · have h := (C1_amended_theorem.1) [c1ReadingX, c1ReadingY] "y"
      c1ServerReading 70 ⟨c1ReadingX, by decide, rfl⟩ (by decide)
    exact ⟨h.1, h.2 c1ReadingY (by decide)⟩
  · exact (C1_amended_theorem.2) [c1MeterA, c1MeterB] "b" c1ServerMeter
      "fresh" 300 c1MeterB (by decide)

/-- The claim C1 fails on the code for meters: meter `a` already owns
`remoteData.id = "s1"` as its server id, yet `reconcileCreatedMeter` run for
local meter `b` adopts the server data — `b` ends `'synced'` with the
duplicate `serverId "s1"` instead of being marked `'conflicted'`. -/
theorem C1_counterexample :
    (c1MeterA.id ≠ "b" ∧ c1MeterA.serverId = some c1ServerMeter.id) ∧
    (getMeterById
        (reconcileCreatedMeter false "b" c1ServerMeter "fresh" 300
          [c1MeterA, c1MeterB]).1 "b").map Meter.syncStatus
      = some .synced ∧
    (getMeterById
        (reconcileCreatedMeter false "b" c1ServerMeter "fresh" 300
          [c1MeterA, c1MeterB]).1 "b").map Meter.syncStatus
      ≠ some .conflicted ∧
    (getMeterById
        (reconcileCreatedMeter false "b" c1ServerMeter "fresh" 300
          [c1MeterA, c1MeterB]).1 "b").map Meter.serverId
      = some (some "s1") := by decide

/-- Claim C2 (amended): on a version regression
(`remoteData.version < local.version`) `reconcileUpdatedMeter` warns and
still applies the server data — fields, `version`, `serverId`,
`syncStatus = 'synced'` — but `reconcileUpdatedReading` does the opposite:
it marks the record `'conflicted'` and discards the server value. -/
theorem C2_amended_theorem :
    (∀ (db : List Meter) (localId freshId : String) (sm : ServerMeter)
        (now : Nat) (m : Meter) (sv : Nat),
      getMeterById db localId = some m →
      sm.version = some sv → sv < m.version.getD 0 →
      (reconcileUpdatedMeter false localId sm freshId now db).warnedVersionRegression
          = true ∧
      (getMeterById (reconcileUpdatedMeter false localId sm freshId now db).db
          m.id).map Meter.syncStatus = some .synced ∧
      (getMeterById (reconcileUpdatedMeter false localId sm freshId now db).db
          m.id).map Meter.version = some (some sv) ∧
      (getMeterById (reconcileUpdatedMeter false localId sm freshId now db).db
          m.id).map Meter.serverId = some (some sm.id) ∧
      (getMeterById (reconcileUpdatedMeter false localId sm freshId now db).db
          m.id).map Meter.serialNumber = some sm.serialNumber) ∧
    (∀ (db : List Reading) (readingId : String) (sr : ServerReading)
        (now : Nat) (r : Reading) (sv lv : Nat),
      getReadingById db readingId = some r →
      sr.version = some sv → r.version = some lv → sv < lv →
      reconcileUpdatedReading readingId sr now db
          = markReadingConflicted readingId now db) := by
  constructor
  · intro db localId freshId sm now m sv hfound hsv hlt
    have hmid : m.id = localId := by
      have := List.find?_some hfound
      simpa using this
    have hwarn : (match sm.version with
        | some v => decide (v < m.version.getD 0)
        | none => false) = true := by
      rw [hsv]
      simpa using hlt
    have hres : reconcileUpdatedMeter false localId sm freshId now db
        = { db := db.map fun x =>
              if x.id = m.id then
                { x with
                  serialNumber := sm.serialNumber
                  address := some sm.address
                  notes := orD sm.notes m.notes
                  version := some (sm.version.getD (m.version.getD 0))
                  lastModified := sm.updatedAt.getD m.lastModified
                  syncStatus := .synced
                  serverId := some sm.id }
              else x
            threw := none
            warnedVersionRegression := true } := by
      unfold reconcileUpdatedMeter
      rw [show orD (getMeterById db localId) (getMeterByServerId db sm.id)
          = some m from by rw [hfound]; rfl]
      simp only [hwarn, Bool.not_true, Bool.false_and, Bool.false_eq_true,
        if_false]
    rw [hres]
    refine ⟨rfl, ?_⟩
    unfold getMeterById
    rw [find?_map_ite db (fun x => x.id) m.id
      (fun x =>
        { x with
          serialNumber := sm.serialNumber
          address := some sm.address
          notes := orD sm.notes m.notes
          version := some (sm.version.getD (m.version.getD 0))
          lastModified := sm.updatedAt.getD m.lastModified
          syncStatus := .synced
          serverId := some sm.id })
      (fun x => rfl)]
    have hfind : (db.find? fun x => x.id == m.id) = some m := by
      rw [hmid]
      exact hfound
    rw [hfind]
    simp [hsv]
  · intro db readingId sr now r sv lv hfound hsv hlv hlt
    unfold reconcileUpdatedReading
    rw [show getReadingById db readingId = some r from hfound]
    simp [hsv, hlv, hlt]

theorem C2_amended_witness :
    ((reconcileUpdatedMeter false "mv" c2ServerMeter "f" 200
        [c2Meter]).warnedVersionRegression = true ∧
      (getMeterById (reconcileUpdatedMeter false "mv" c2ServerMeter "f" 200
          [c2Meter]).db "mv").map Meter.syncStatus = some .synced ∧
      (getMeterById (reconcileUpdatedMeter false "mv" c2ServerMeter "f" 200
          [c2Meter]).db "mv").map Meter.version = some (some 1) ∧
      (getMeterById (reconcileUpdatedMeter false "mv" c2ServerMeter "f" 200
          [c2Meter]).db "mv").map Meter.serialNumber = some "SN-new") ∧
    reconcileUpdatedReading "r1" c2ServerReading 200 [c2Reading]
      = markReadingConflicted "r1" 200 [c2Reading] := by
  constructor
  · have h := (C2_amended_theorem.1) [c2Meter] "mv" "f" c2ServerMeter 200
      c2Meter 1 (by decide) rfl (by decide)
    exact ⟨h.1, h.2.1, h.2.2.1, h.2.2.2.2⟩
  · exact (C2_amended_theorem.2) [c2Reading] "r1" c2ServerReading 200
      c2Reading 2 5 (by decide) rfl rfl (by decide)

/-- The claim C2 fails on the code for readings: the server responds with
`version = 2` while the local reading holds `version = 5`; the engine marks
the reading `'conflicted'` and keeps the local value 10 — the server value 99
is never written and the record is not `'synced'`. -/
theorem C2_counterexample :
    (c2ServerReading.version = some 2 ∧ c2Reading.version = some 5) ∧
    reconcileUpdatedReading "r1" c2ServerReading 200 [c2Reading]
      = [{ c2Reading with syncStatus := .conflicted, lastModified := 200 }] ∧
    (getReadingById
        (reconcileUpdatedReading "r1" c2ServerReading 200 [c2Reading])
        "r1").map Reading.value = some 10 ∧
    (getReadingById
        (reconcileUpdatedReading "r1" c2ServerReading 200 [c2Reading])
        "r1").map Reading.syncStatus ≠ some .synced := by decide

/-- Claim C8 (amended): when reconciling a successful remote response raises
an exception the queue item is marked `'failed'` (with error details) and
preserved in the queue, and the *meter* record is marked `syncStatus =
'error'` via `updateMeterSyncStatusOnError`; but `reconcileCreatedIncident`'s
exception handler writes `syncStatus = 'failed'` to the incident record —
the status the spec reserves for queue items. -/
theorem C8_amended_theorem :
    (∀ (db : List Meter) (localId : String) (sm : ServerMeter)
        (freshId : String) (now : Nat) (m : Meter),
      getMeterById db localId = some m →
      (getMeterById (reconcileCreatedMeter true localId sm freshId now db).1
          localId).map Meter.syncStatus = some .error ∧
      (reconcileCreatedMeter true localId sm freshId now db).2.isSome
          = true) ∧
    (∀ (msg : String) (now : Nat) (item : OfflineQueueItem)
        (queue : List OfflineQueueItem),
      ∃ q', processQueueItem true (.reconcileError msg) now item queue
          = .ok q' ∧
        q'.length = queue.length ∧
        (∀ x ∈ q', x.id = item.id →
          x.status = .failed ∧ x.errorDetails ≠ none) ∧
        (∀ x ∈ queue, x.id ≠ item.id → x ∈ q')) := by
  constructor
  · intro db localId sm freshId now m hfound
    have hmid : m.id = localId := by
      have := List.find?_some hfound
      simpa using this
    have hres : reconcileCreatedMeter true localId sm freshId now db
        = (updateMeterSyncStatusOnError localId now db,
           some "Error reconciling created meter") := by
      unfold reconcileCreatedMeter
      rw [show getMeterById db localId = some m from hfound]
      simp
    rw [hres]
    constructor
    · unfold getMeterById updateMeterSyncStatusOnError
      rw [find?_map_ite db (fun x => x.id) localId
        (fun x => { x with syncStatus := .error, lastModified := now })
        (fun x => rfl)]
      rw [show (db.find? fun x => x.id == localId) = some m from hfound]
      simp [hmid]
    · rfl
  · intro msg now item queue
    have hupd : ∀ (st : OfflineQueueStatus) (inc : Nat) (e : String)
        (q : List OfflineQueueItem),
        (∀ x ∈ updateQueueItemStatus item.id st inc (some e) now q,
          x.id = item.id → x.status = st ∧ x.errorDetails ≠ none) := by
      intro st inc e q x hx hid
      have h := mem_updateQueueItemStatus_target hx hid
      exact ⟨h.1, by rw [h.2 e rfl]; simp⟩
    have hlen : ∀ (st : OfflineQueueStatus) (inc : Nat)
        (errD : Option String) (q : List OfflineQueueItem),
        (updateQueueItemStatus item.id st inc errD now q).length = q.length := by
      intro st inc errD q
      unfold updateQueueItemStatus
      exact List.length_map _ _
    have hpres : ∀ (st : OfflineQueueStatus) (inc : Nat)
        (errD : Option String) (q : List OfflineQueueItem) (x : OfflineQueueItem),
        x ∈ q → x.id ≠ item.id →
        x ∈ updateQueueItemStatus item.id st inc errD now q := by
      intro st inc errD q x hx hne
      exact mem_updateQueueItemStatus_of_ne hx hne st inc errD now
    by_cases h1 : (isCreateOperation item.operationType
        && item.entityId == none) = true
    · have heq : processQueueItem true (.reconcileError msg) now item queue
          = .ok (updateQueueItemStatus item.id .failed 0
              (some "Missing client-side localEntityId for CREATE operation reconciliation")
              now (updateQueueItemStatus item.id .processing 1 none now queue)) := by
        simp [processQueueItem, h1]
      refine ⟨_, heq, ?_, ?_, ?_⟩
      · rw [hlen, hlen]
      · intro x hx hid
        exact hupd _ _ _ _ x hx hid
      · intro x hx hne
        exact hpres _ _ _ _ x (hpres _ _ _ _ x hx hne) hne
    · by_cases h2 : (requiresLocalEntityIdForUpdateOrDelete item.operationType
          && item.entityId == none) = true
      · have heq : processQueueItem true (.reconcileError msg) now item queue
            = .ok (updateQueueItemStatus item.id .failed 0
                (some "Missing localEntityId for reconciliation")
                now (updateQueueItemStatus item.id .processing 1 none now queue)) := by
          simp [processQueueItem, h1, h2]
        refine ⟨_, heq, ?_, ?_, ?_⟩
        · rw [hlen, hlen]
        · intro x hx hid
          exact hupd _ _ _ _ x hx hid
        · intro x hx hne
          exact hpres _ _ _ _ x (hpres _ _ _ _ x hx hne) hne
      · have heq : processQueueItem true (.reconcileError msg) now item queue
            = .ok (updateQueueItemStatus item.id .failed 0
                (some ("Reconciliation failed: " ++ msg))
                now (updateQueueItemStatus item.id .processing 1 none now queue)) := by
          simp [processQueueItem, h1, h2]
        refine ⟨_, heq, ?_, ?_, ?_⟩
        · rw [hlen, hlen]
        · intro x hx hid
          exact hupd _ _ _ _ x hx hid
        · intro x hx hne
          exact hpres _ _ _ _ x (hpres _ _ _ _ x hx hne) hne

theorem C8_amended_witness :
    ((getMeterById (reconcileCreatedMeter true "me" c8ServerMeter "f" 30
        [c8Meter]).1 "me").map Meter.syncStatus = some .error ∧
      (reconcileCreatedMeter true "me" c8ServerMeter "f" 30
        [c8Meter]).2.isSome = true) ∧
    (∃ q', processQueueItem true (.reconcileError "merge fault") 40 c8Item
        [c8Item] = .ok q' ∧
      q'.length = 1 ∧
      (∀ x ∈ q', x.id = c8Item.id →
        x.status = .failed ∧ x.errorDetails ≠ none) ∧
      (∀ x ∈ [c8Item], x.id ≠ c8Item.id → x ∈ q')) :=
  ⟨(C8_amended_theorem.1) [c8Meter] "me" c8ServerMeter "f" 30 c8Meter
      (by decide),
   (C8_amended_theorem.2) "merge fault" 40 c8Item [c8Item]⟩

/-- The claim C8 fails on the code for incidents: an exception while
reconciling `CREATE_INCIDENT` leaves the incident record with `syncStatus =
'failed'`, not `'error'`. -/
theorem C8_counterexample :
    (reconcileCreatedIncident true "i1" c8ServerIncident 50 [c8Incident]).2.isSome
        = true ∧
    (getIncidentById
        (reconcileCreatedIncident true "i1" c8ServerIncident 50
          [c8Incident]).1 "i1").map Incident.syncStatus = some .failed ∧
    (getIncidentById
        (reconcileCreatedIncident true "i1" c8ServerIncident 50
          [c8Incident]).1 "i1").map Incident.syncStatus
      ≠ some .error := by decide

/-- Claim C9: the repository function `reconcileBatchUpdateSequence`
implements exactly the claimed behaviour — with no item list it marks the
route's `'pending'` children `'synced'`, and with an item list it applies
`reconcileUpdatedRouteMeter` per returned item — but the sync engine's
`handleReconciliation` never calls it: on a successful
`BATCH_UPDATE_ROUTEMETER_SEQUENCE` the engine leaves the `RouteMeters` table
unchanged, so the pending child stays `'pending'`. -/
theorem C9_batch_reconciliation_not_wired :
    (handleReconciliationBatchUpdateSequence c9BatchItem (some c9Response)
        [c9RouteMeter] = [c9RouteMeter] ∧
      c9RouteMeter.syncStatus = .pending ∧
      (getRouteMeterById
          (reconcileBatchUpdateSequence "route1" c9Response 20 [c9RouteMeter])
          "route1" "meterA").map RouteMeter.syncStatus = some .synced) ∧
    (∀ (routeId : String) (srm : ServerRouteMeter)
        (rest : List ServerRouteMeter) (now : Nat) (db : List RouteMeter),
      reconcileBatchUpdateSequence routeId ⟨true, some (srm :: rest)⟩ now db
        = (srm :: rest).foldl
            (fun d s => reconcileUpdatedRouteMeter s.routeId s.meterId s now d)
            db) := by
  refine ⟨by decide, fun routeId srm rest now db => rfl⟩

/-- Claim C10: an invocation of `triggerSync` that is not turned away by the
single-flight guard always terminates with `isSyncing = false` — the
`finally` clears the guard on the normal and on every exceptional path
(queue read, per-item processing, re-read or purge throwing) — and whenever
the pass body raises, the error is converted into an `'error'` status report
instead of rejecting, so no failure can wedge the guard. -/
theorem C10_guard_always_cleared (o : SyncOracle) (isManual : Bool)
    (now : Nat) (w : SyncWorld) (h : w.isSyncing = false) :
    (triggerSync o isManual now w).world.isSyncing = false ∧
    (∀ e q, runPassBody o now w.queue = .error (e, q) →
      (triggerSync o isManual now w).world.syncStatus.status = .error) := by
  unfold triggerSync
  rw [h]
  by_cases hr : o.reach 0
  · by_cases hd : w.dbOpen
    · cases hbody : runPassBody o now w.queue with
      | ok v =>
        obtain ⟨q2, summary2, finalStatus, broke, ids⟩ := v
        refine ⟨by simp [hr, hd], ?_⟩
        intro e q heq
        exact absurd heq (by simp)
      | error ev =>
        obtain ⟨e1, q1⟩ := ev
        refine ⟨by simp [hr, hd], ?_⟩
        intro e q heq
        simp [hr, hd]
    · simp only [Bool.not_eq_true] at hd
      refine ⟨by simp [hr, hd, h], ?_⟩
      intro e q heq
      simp [hr, hd]
  · simp only [Bool.not_eq_true] at hr
    refine ⟨by simp [hr, h], ?_⟩
    intro e q heq
    simp [hr]

theorem C10_guard_witness :
    (triggerSync c10Oracle false 7 c10World).world.isSyncing = false ∧
    (triggerSync c10Oracle false 7 c10World).world.syncStatus.status
      = .error :=
  ⟨(C10_guard_always_cleared c10Oracle false 7 c10World rfl).1,
   (C10_guard_always_cleared c10Oracle false 7 c10World rfl).2
     "getPendingOperations failed" c10World.queue rfl⟩

/-- Exhaustive shape analysis of `processQueueItem`: it either skips (network
gone), rethrows a status-write error, or marks the item through the
`processing` write followed by one terminal write. -/
theorem processQueueItem_cases (reachable : Bool) (outcome : ItemOutcome)
    (now : Nat) (item : OfflineQueueItem) (queue : List OfflineQueueItem) :
    processQueueItem reachable outcome now item queue = .ok queue ∨
    (∃ m, outcome = .statusWriteError m ∧
      processQueueItem reachable outcome now item queue = .error (m, queue)) ∨
    (∃ st errD, processQueueItem reachable outcome now item queue
        = .ok (updateQueueItemStatus item.id st 0 errD now
            (updateQueueItemStatus item.id .processing 1 none now queue))) := by
  cases hre : reachable with
  | false => exact Or.inl (by simp [processQueueItem])
  | true =>
    cases outcome with
    | statusWriteError m =>
      exact Or.inr (Or.inl ⟨m, rfl, by simp [processQueueItem]⟩)
    | parseError =>
      exact Or.inr (Or.inr ⟨.failed, some "Payload parse error",
        by simp [processQueueItem]⟩)
    | apiError err =>
      exact Or.inr (Or.inr ⟨.failed, some err, by simp [processQueueItem]⟩)
    | reconcileError m =>
      by_cases h1 : (isCreateOperation item.operationType
          && item.entityId == none) = true
      · exact Or.inr (Or.inr ⟨.failed,
          some "Missing client-side localEntityId for CREATE operation reconciliation",
          by simp [processQueueItem, h1]⟩)
      · by_cases h2 : (requiresLocalEntityIdForUpdateOrDelete item.operationType
            && item.entityId == none) = true
        · exact Or.inr (Or.inr ⟨.failed,
            some "Missing localEntityId for reconciliation",
            by simp [processQueueItem, h1, h2]⟩)
        · exact Or.inr (Or.inr ⟨.failed,
            some ("Reconciliation failed: " ++ m),
            by simp [processQueueItem, h1, h2]⟩)
    | success =>
      by_cases h1 : (isCreateOperation item.operationType
          && item.entityId == none) = true
      · exact Or.inr (Or.inr ⟨.failed,
          some "Missing client-side localEntityId for CREATE operation reconciliation",
          by simp [processQueueItem, h1]⟩)
      · by_cases h2 : (requiresLocalEntityIdForUpdateOrDelete item.operationType
            && item.entityId == none) = true
        · exact Or.inr (Or.inr ⟨.failed,
            some "Missing localEntityId for reconciliation",
            by simp [processQueueItem, h1, h2]⟩)
        · exact Or.inr (Or.inr ⟨.completed, none,
            by simp [processQueueItem, h1, h2]⟩)

/-- When the outcome is not a status-write throw, `processQueueItem`
succeeds and preserves every record with a different id. -/
theorem processQueueItem_ok_pres (reachable : Bool) (outcome : ItemOutcome)
    (now : Nat) (item : OfflineQueueItem) (queue : List OfflineQueueItem)
    (h : ∀ m, outcome ≠ .statusWriteError m) :
    ∃ q', processQueueItem reachable outcome now item queue = .ok q' ∧
      ∀ x ∈ queue, x.id ≠ item.id → x ∈ q' := by
  rcases processQueueItem_cases reachable outcome now item queue with
    heq | ⟨m, hm, _⟩ | ⟨st, errD, heq⟩
  · exact ⟨queue, heq, fun x hx _ => hx⟩
  · exact absurd hm (h m)
  · refine ⟨_, heq, ?_⟩
    intro x hx hne
    exact mem_updateQueueItemStatus_of_ne
      (mem_updateQueueItemStatus_of_ne hx hne _ _ _ _) hne _ _ _ _

/-- With reachability holding at every check and no status-write throw, the
loop visits every item once, in order, and preserves records whose id occurs
in no visited item. -/
theorem processLoop_all_ok (o : SyncOracle) (now : Nat)
    (houtcome : ∀ j m, o.outcome j ≠ .statusWriteError m)
    (items : List OfflineQueueItem) :
    ∀ (i : Nat) (queue : List OfflineQueueItem),
    (∀ j, o.reach (j + 1) = true) →
    ∃ q', processLoop o now i items queue
        = .ok (q', false, items.map (fun it => it.id)) ∧
      ∀ x ∈ queue, (∀ it ∈ items, x.id ≠ it.id) → x ∈ q' := by
  induction items with
  | nil =>
    intro i queue _
    exact ⟨queue, rfl, fun x hx _ => hx⟩
  | cons item rest ih =>
    intro i queue hreach
    obtain ⟨q1, hq1, hpres1⟩ :=
      processQueueItem_ok_pres (o.reach (i + 1)) (o.outcome i) now item queue
        (houtcome i)
    obtain ⟨q', hq', hpres⟩ := ih (i + 1) q1 hreach
    refine ⟨q', ?_, ?_⟩
    · unfold processLoop
      rw [hreach i] at hq1
      simp only [hreach i, Bool.not_true, Bool.false_eq_true, if_false,
        hq1, hq', List.map_cons]
    · intro x hx hne
      exact hpres x
        (hpres1 x hx (hne item (List.mem_cons_self item rest)))
        (fun it hit => hne it (List.mem_cons_of_mem item hit))

/-- When reachability is lost before item `k`, the loop stops there: it
visits exactly the first `k` items and leaves every record whose id occurs
in none of them untouched. -/
theorem processLoop_break (o : SyncOracle) (now : Nat)
    (houtcome : ∀ j m, o.outcome j ≠ .statusWriteError m)
    (items : List OfflineQueueItem) :
    ∀ (k i : Nat) (queue : List OfflineQueueItem),
    k < items.length →
    (∀ j, j < k → o.reach (i + j + 1) = true) →
    o.reach (i + k + 1) = false →
    ∃ q', processLoop o now i items queue
        = .ok (q', true, (items.take k).map (fun it => it.id)) ∧
      ∀ x ∈ queue, (∀ it ∈ items.take k, x.id ≠ it.id) → x ∈ q' := by
  induction items with
  | nil =>
    intro k i queue hk _ _
    exact absurd hk (by simp)
  | cons item rest ih =>
    intro k i queue hk hbefore hlost
    cases k with
    | zero =>
      refine ⟨queue, ?_, fun x hx _ => hx⟩
      unfold processLoop
      rw [show o.reach (i + 1) = false from hlost]
      simp
    | succ k' =>
      have hr0 : o.reach (i + 1) = true := by
        have := hbefore 0 (Nat.succ_pos k')
        simpa using this
      obtain ⟨q1, hq1, hpres1⟩ :=
        processQueueItem_ok_pres (o.reach (i + 1)) (o.outcome i) now item
          queue (houtcome i)
      have hk' : k' < rest.length := Nat.lt_of_succ_lt_succ hk
      have hbefore' : ∀ j, j < k' → o.reach (i + 1 + j + 1) = true := by
        intro j hj
        have := hbefore (j + 1) (Nat.succ_lt_succ hj)
        rwa [show i + (j + 1) + 1 = i + 1 + j + 1 by omega] at this
      have hlost' : o.reach (i + 1 + k' + 1) = false := by
        rwa [show i + (k' + 1) + 1 = i + 1 + k' + 1 by omega] at hlost
      obtain ⟨q', hq', hpres⟩ := ih k' (i + 1) q1 hk' hbefore' hlost'
      refine ⟨q', ?_, ?_⟩
      · unfold processLoop
        rw [hr0] at hq1
        simp only [hr0, Bool.not_true, Bool.false_eq_true, if_false,
          hq1, hq', List.take_succ_cons, List.map_cons]
      · intro x hx hne
        exact hpres x
          (hpres1 x hx (hne item (by simp)))
          (fun it hit => hne it (by simp [hit]))

/-- A successful pass body evaluates to `finishPass` of the loop result. -/
theorem runPassBody_spec (o : SyncOracle) (now : Nat)
    (queue0 : List OfflineQueueItem)
    (hgp : o.getPendingThrows = false) (hrf : o.refetchThrows = false)
    (hcl : o.clearThrows = false)
    {q' : List OfflineQueueItem} {broke : Bool} {ids : List String}
    (hloop : processLoop o now 0 (getPendingOperations 50 queue0) queue0
        = .ok (q', broke, ids)) :
    runPassBody o now queue0
      = .ok (finishPass (getPendingOperations 50 queue0).length q' broke ids) := by
  simp only [runPassBody, hgp, hrf, hcl, hloop, Bool.false_eq_true, if_false]

/-- A started pass that completes its body evaluates to the `.ok` branch of
`triggerSync`. -/
theorem triggerSync_ok_spec (o : SyncOracle) (isManual : Bool) (now : Nat)
    (w : SyncWorld) (hsync : w.isSyncing = false) (hr : o.reach 0 = true)
    (hdb : w.dbOpen = true) {q2 : List OfflineQueueItem}
    {summary : SyncSummary} {finalStatus : SyncStatus} {broke : Bool}
    {ids : List String}
    (hbody : runPassBody o now w.queue
        = .ok (q2, summary, finalStatus, broke, ids)) :
    triggerSync o isManual now w =
      { world :=
          { queue := q2
            isSyncing := false
            dbOpen := w.dbOpen
            syncStatus := finalStatus }
        trace := [syncStartStatus]
          ++ (if broke then [internetLostStatus] else []) ++ [finalStatus]
        log := []
        processedIds := ids
        summary := summary } := by
  simp only [triggerSync, hsync, hr, hdb, hbody, Bool.false_eq_true,
    Bool.not_true, if_false]

/-- Claim C3 (amended): a pass that keeps reachability and hits no internal
error hands each item of the ready batch — the oldest `min(50, ready)` ready
items, because `getPendingOperations` is called with its default limit 50 —
to `processQueueItem` exactly once, in order, with no loop-until-empty; it
then purges every `'completed'` item and reports a summary whose
`processedItems` is the batch size, ending the trace with the final status. -/
theorem C3_single_pass_drain (o : SyncOracle) (now : Nat) (w : SyncWorld)
    (hsync : w.isSyncing = false) (hdb : w.dbOpen = true)
    (hreach : ∀ j, o.reach j = true)
    (houtcome : ∀ j m, o.outcome j ≠ .statusWriteError m)
    (hgp : o.getPendingThrows = false) (hrf : o.refetchThrows = false)
    (hcl : o.clearThrows = false) :
    (triggerSync o false now w).processedIds
        = (getPendingOperations 50 w.queue).map (fun it => it.id) ∧
    (∀ it ∈ (triggerSync o false now w).world.queue,
      it.status ≠ .completed) ∧
    (triggerSync o false now w).summary.processedItems
        = (getPendingOperations 50 w.queue).length ∧
    (triggerSync o false now w).trace
        = [syncStartStatus, (triggerSync o false now w).world.syncStatus] := by
  obtain ⟨q', hloop, -⟩ := processLoop_all_ok o now houtcome
    (getPendingOperations 50 w.queue) 0 w.queue (fun j => hreach (j + 1))
  have hbody := runPassBody_spec o now w.queue hgp hrf hcl hloop
  have htrig := triggerSync_ok_spec o false now w hsync (hreach 0) hdb hbody
  rw [htrig]
  refine ⟨rfl, ?_, rfl, by simp⟩
  intro it hit
  exact mem_clearCompleted_status hit

theorem C3_single_pass_witness :
    (triggerSync c3Oracle false 9 c3World).processedIds
        = (getPendingOperations 50 c3World.queue).map (fun it => it.id) ∧
    (∀ it ∈ (triggerSync c3Oracle false 9 c3World).world.queue,
      it.status ≠ .completed) ∧
    (triggerSync c3Oracle false 9 c3World).summary.processedItems
        = (getPendingOperations 50 c3World.queue).length ∧
    (triggerSync c3Oracle false 9 c3World).processedIds = ["a", "b"] :=
  ⟨(C3_single_pass_drain c3Oracle 9 c3World rfl rfl (fun _ => rfl)
      (fun _ m => by simp [c3Oracle]) rfl rfl rfl).1,
   (C3_single_pass_drain c3Oracle 9 c3World rfl rfl (fun _ => rfl)
      (fun _ m => by simp [c3Oracle]) rfl rfl rfl).2.1,
   (C3_single_pass_drain c3Oracle 9 c3World rfl rfl (fun _ => rfl)
      (fun _ m => by simp [c3Oracle]) rfl rfl rfl).2.2.1,
   by decide⟩

set_option maxRecDepth 100000 in
set_option maxHeartbeats 2000000 in
/-- The claim C3 fails on the code: with 51 ready items and nothing failing,
a full pass processes only the oldest 50 (`getPendingOperations`' default
`LIMIT 50`); item `"q50"`, ready at the start of the pass, is never handed to
`processQueueItem` and is still `'pending'` afterwards. -/
theorem C3_counterexample :
    (c3BigQueue.filter isReady).length = 51 ∧
    (triggerSync c3Oracle false 1000 c3BigWorld).processedIds.length = 50 ∧
    (triggerSync c3Oracle false 1000 c3BigWorld).processedIds.contains "q50"
        = false ∧
    ((triggerSync c3Oracle false 1000 c3BigWorld).world.queue.filter
        (fun it => it.id == "q50" && it.status == .pending)).length = 1 := by
  decide

/-- Claim C6: when reachability is lost before item `k` of the ready batch,
the pass hands exactly the first `k` items to `processQueueItem`; every
later ready item survives in the queue completely untouched — same record,
same status, never marked `'failed'` or `'processing'` — and the "Internet
lost during sync." error status is reported on the trace. -/
theorem C6_reachability_loss_abort (o : SyncOracle) (now : Nat)
    (w : SyncWorld) (k : Nat)
    (hsync : w.isSyncing = false) (hdb : w.dbOpen = true)
    (h0 : o.reach 0 = true)
    (hnodup : (w.queue.map (fun it => it.id)).Nodup)
    (hk : k < (getPendingOperations 50 w.queue).length)
    (hbefore : ∀ j, j < k → o.reach (j + 1) = true)
    (hlost : o.reach (k + 1) = false)
    (houtcome : ∀ j m, o.outcome j ≠ .statusWriteError m)
    (hgp : o.getPendingThrows = false) (hrf : o.refetchThrows = false)
    (hcl : o.clearThrows = false) :
    (triggerSync o false now w).processedIds
        = ((getPendingOperations 50 w.queue).take k).map (fun it => it.id) ∧
    (∀ it ∈ (getPendingOperations 50 w.queue).drop k,
      it ∈ (triggerSync o false now w).world.queue) ∧
    internetLostStatus ∈ (triggerSync o false now w).trace := by
  obtain ⟨q', hloop, hpres⟩ := processLoop_break o now houtcome
    (getPendingOperations 50 w.queue) k 0 w.queue hk
    (fun j hj => by rw [Nat.zero_add]; exact hbefore j hj)
    (by rw [Nat.zero_add]; exact hlost)
  have hbody := runPassBody_spec o now w.queue hgp hrf hcl hloop
  have htrig := triggerSync_ok_spec o false now w hsync h0 hdb hbody
  rw [htrig]
  refine ⟨rfl, ?_, by simp⟩
  intro it hit
  have hitready : it ∈ getPendingOperations 50 w.queue :=
    List.mem_of_mem_drop hit
  have hitq : it ∈ w.queue := mem_getPendingOperations_sub hitready
  have hridsnodup :
      (((getPendingOperations 50 w.queue).take k).map (fun x => x.id)
        ++ ((getPendingOperations 50 w.queue).drop k).map
          (fun x => x.id)).Nodup := by
    rw [← List.map_append, List.take_append_drop]
    exact getPendingOperations_ids_nodup hnodup
  have hdisj := List.disjoint_of_nodup_append hridsnodup
  have hne : ∀ it' ∈ (getPendingOperations 50 w.queue).take k,
      it.id ≠ it'.id := by
    intro it' hit' heq
    exact hdisj (heq ▸ List.mem_map_of_mem (fun x => x.id) hit')
      (List.mem_map_of_mem (fun x => x.id) hit)
  have hinq' : it ∈ q' := hpres it hitq hne
  have hstat : it.status ≠ .completed := by
    have := mem_getPendingOperations_isReady hitready
    revert this
    unfold isReady
    rcases it.status <;> simp
  show it ∈ q'.filter (fun x => x.status != .completed)
  exact List.mem_filter.mpr ⟨hinq', by simpa [bne] using hstat⟩

theorem C6_reachability_loss_witness :
    (triggerSync c6Oracle false 9 c6World).processedIds = ["a"] ∧
    c4Item "b" .pending 2 ∈ (triggerSync c6Oracle false 9 c6World).world.queue ∧
    c4Item "c" .failed 3 ∈ (triggerSync c6Oracle false 9 c6World).world.queue ∧
    internetLostStatus ∈ (triggerSync c6Oracle false 9 c6World).trace := by
  have h := C6_reachability_loss_abort c6Oracle 9 c6World 1 rfl rfl rfl
    (by decide) (by decide)
    (by
      intro j hj
      have hj0 : j = 0 := by omega
      subst hj0
      decide)
    rfl (fun _ m => by simp [c6Oracle]) rfl rfl rfl
  exact ⟨h.1.trans (by decide), h.2.1 _ (by decide), h.2.1 _ (by decide),
    h.2.2⟩

end GLA
